import Mathlib

/-
  Verification of the core game logic of `src/pong.ts` (pong-mini).

  The game's numbers (JS doubles) are modelled as real numbers; `Math.hypot`
  and `Math.sqrt` become `Real.sqrt`, `Math.min/max` become `min`/`max`.
  The mutable per-instance `state` record becomes the `GameState` structure,
  and each mutating function of the source becomes a state-passing function.
  `performance.now()` is modelled as the tick's clock value (one clock read
  per tick, passed in a `TickEnv`), and `Math.random()` results are passed
  in as oracle arguments (`rand`, `rSign`).  The `dt` argument of `update`
  is kept as an (unused, exactly as in the source) argument.
-/

namespace Pong

/-- Configurable options with their defaults from `createPong` (lines 48-54). -/
structure Config where
  playerSpeed : ℝ
  aiMaxSpeed : ℝ
  ballSpeedInitial : ℝ
  ballSpeedStep : ℝ
  ballSpeedMax : ℝ
  winScore : ℕ

/-- Field width, `WIDTH = 800`. -/
noncomputable def WIDTH : ℝ := 800

/-- Field height, `HEIGHT = 500`. -/
noncomputable def HEIGHT : ℝ := 500

/-- Paddle width, `PADDLE_WIDTH = 12`. -/
noncomputable def PADDLE_WIDTH : ℝ := 12

/-- Paddle height, `PADDLE_HEIGHT = 90`. -/
noncomputable def PADDLE_HEIGHT : ℝ := 90

/-- Ball radius, `BALL_RADIUS = 8`. -/
noncomputable def BALL_RADIUS : ℝ := 8

/-- Post-goal pause, `GOAL_PAUSE_MS = 1000`. -/
noncomputable def GOAL_PAUSE_MS : ℝ := 1000

/-- Player paddle x, `PLAYER_X = 20`. -/
noncomputable def PLAYER_X : ℝ := 20

/-- AI paddle x, `AI_X = WIDTH - 20 - PADDLE_WIDTH`. -/
noncomputable def AI_X : ℝ := WIDTH - 20 - PADDLE_WIDTH

/-- Touch gesture threshold, `touchThreshold = 20` (line 169). -/
noncomputable def touchThreshold : ℝ := 20

/-- The default configuration (`options` all absent). -/
noncomputable def defaultConfig : Config :=
  { playerSpeed := 5
    aiMaxSpeed := 3
    ballSpeedInitial := 4
    ballSpeedStep := 0.3
    ballSpeedMax := 10
    winScore := 5 }

/-- The ball: position and velocity (`state.ball`). -/
structure Ball where
  x : ℝ
  y : ℝ
  vx : ℝ
  vy : ℝ

/-- The mutable game state record (`state`, lines 119-129). -/
structure GameState where
  ball : Ball
  playerY : ℝ
  aiY : ℝ
  scorePlayer : ℕ
  scoreAI : ℕ
  running : Bool
  pausedUntil : ℝ
  lastTime : Option ℝ
  inputUp : Bool
  inputDown : Bool
  rafId : ℕ

/-- The `clamp` helper (line 115): `Math.min(max, Math.max(min, v))`. -/
noncomputable def clamp (v lo hi : ℝ) : ℝ := min hi (max lo v)

/-- The `randomRange` helper (line 117) with the `Math.random()` result
    passed in as `rand`. -/
noncomputable def randomRange (rand lo hi : ℝ) : ℝ := lo + rand * (hi - lo)

/-- The initial state built at `createPong` time (lines 119-129). -/
noncomputable def initialState (cfg : Config) : GameState :=
  { ball := ⟨WIDTH / 2, HEIGHT / 2, cfg.ballSpeedInitial, 0⟩
    playerY := HEIGHT / 2 - PADDLE_HEIGHT / 2
    aiY := HEIGHT / 2 - PADDLE_HEIGHT / 2
    scorePlayer := 0
    scoreAI := 0
    running := false
    pausedUntil := 0
    lastTime := none
    inputUp := false
    inputDown := false
    rafId := 0 }

/-- `resetBall(direction?)` (lines 224-230); `rSign` is the `randomSign()`
    oracle used when no direction is given, `rand` the `Math.random()` of
    `randomRange`. -/
noncomputable def resetBall (cfg : Config) (direction : Option ℝ) (rSign rand : ℝ)
    (s : GameState) : GameState :=
  let dirX := direction.getD rSign
  { s with ball := ⟨WIDTH / 2, HEIGHT / 2, dirX * cfg.ballSpeedInitial,
      randomRange rand (-(cfg.ballSpeedInitial / 2)) (cfg.ballSpeedInitial / 2)⟩ }

/-- `resetMatch()` (lines 232-243): zero the scores, set running, recenter
    paddles and serve a fresh ball (overlay updates are presentation-only). -/
noncomputable def resetMatch (cfg : Config) (rSign rand : ℝ) (s : GameState) : GameState :=
  resetBall cfg none rSign rand
    { s with scorePlayer := 0, scoreAI := 0, running := true
             playerY := HEIGHT / 2 - PADDLE_HEIGHT / 2
             aiY := HEIGHT / 2 - PADDLE_HEIGHT / 2 }

/-- The new scalar speed computed in `reflectFromPaddle` (line 247):
    `Math.min(Math.hypot(vx, vy) + BALL_SPEED_STEP, BALL_SPEED_MAX)`,
    read after `vx *= -1`. -/
noncomputable def reflectSpeed (cfg : Config) (b : Ball) : ℝ :=
  min (Real.sqrt ((b.vx * -1) ^ 2 + b.vy ^ 2) + cfg.ballSpeedStep) cfg.ballSpeedMax

/-- The vertical velocity before renormalization (lines 248, 250):
    `vy + angleInfluence * 2`. -/
noncomputable def reflectVy (paddleY : ℝ) (b : Ball) : ℝ :=
  b.vy + (b.y - (paddleY + PADDLE_HEIGHT / 2)) / (PADDLE_HEIGHT / 2) * 2

/-- The horizontal velocity before renormalization (lines 249, 251):
    `(Math.sign(vx) || 1) * Math.sqrt(Math.max(speed*speed - vy*vy, 1))`,
    where `vx` is the already-negated horizontal velocity. -/
noncomputable def reflectVx (cfg : Config) (paddleY : ℝ) (b : Ball) : ℝ :=
  (if b.vx * -1 < 0 then (-1 : ℝ) else 1)
    * Real.sqrt (max (reflectSpeed cfg b ^ 2 - reflectVy paddleY b ^ 2) 1)

/-- `reflectFromPaddle(paddleY)` (lines 245-257), acting on the ball. -/
noncomputable def reflectFromPaddle (cfg : Config) (paddleY : ℝ) (b : Ball) : Ball :=
  let speed := reflectSpeed cfg b
  let vy := reflectVy paddleY b
  let vx := reflectVx cfg paddleY b
  let norm0 := Real.sqrt (vx ^ 2 + vy ^ 2)
  let norm := if norm0 = 0 then 1 else norm0
  { b with vx := vx / norm * speed, vy := vy / norm * speed }

/-- `onScore(nextDirection)` (lines 259-269): terminal win when a score has
    reached `WIN_SCORE`, otherwise a 1s pause and a directed serve. -/
noncomputable def onScore (cfg : Config) (nextDirection : ℝ) (now rand : ℝ)
    (s : GameState) : GameState :=
  if cfg.winScore ≤ s.scorePlayer ∨ cfg.winScore ≤ s.scoreAI then
    { s with running := false }
  else
    resetBall cfg (some nextDirection) 0 rand { s with pausedUntil := now + GOAL_PAUSE_MS }

/-- The physics part of `update` (lines 276-310): paddle motion, ball
    integration, wall bounces and paddle collisions, in source order. -/
noncomputable def stepPhysics (cfg : Config) (s : GameState) : GameState :=
  let playerVelocity := (if s.inputUp then -cfg.playerSpeed else 0)
    + (if s.inputDown then cfg.playerSpeed else 0)
  let playerY := clamp (s.playerY + playerVelocity) 0 (HEIGHT - PADDLE_HEIGHT)
  let ballTargetY := s.ball.y - PADDLE_HEIGHT / 2
  let aiSpeed := if s.ball.vx < 0 then cfg.aiMaxSpeed * 0.3 else cfg.aiMaxSpeed
  let delta := ballTargetY - s.aiY
  let aiY := clamp (s.aiY + clamp delta (-aiSpeed) aiSpeed) 0 (HEIGHT - PADDLE_HEIGHT)
  let x1 := s.ball.x + s.ball.vx
  let y1 := s.ball.y + s.ball.vy
  let y2 := if y1 - BALL_RADIUS ≤ 0 then BALL_RADIUS else y1
  let vy2 := if y1 - BALL_RADIUS ≤ 0 then -s.ball.vy else s.ball.vy
  let y3 := if y2 + BALL_RADIUS ≥ HEIGHT then HEIGHT - BALL_RADIUS else y2
  let vy3 := if y2 + BALL_RADIUS ≥ HEIGHT then -vy2 else vy2
  let b1 : Ball := ⟨x1, y3, s.ball.vx, vy3⟩
  let b2 : Ball :=
    if b1.x - BALL_RADIUS ≤ PLAYER_X + PADDLE_WIDTH ∧ b1.x - BALL_RADIUS ≥ PLAYER_X
        ∧ b1.y ≥ playerY ∧ b1.y ≤ playerY + PADDLE_HEIGHT then
      reflectFromPaddle cfg playerY ⟨PLAYER_X + PADDLE_WIDTH + BALL_RADIUS, b1.y, b1.vx, b1.vy⟩
    else b1
  let b3 : Ball :=
    if b2.x + BALL_RADIUS ≥ AI_X ∧ b2.x + BALL_RADIUS ≤ AI_X + PADDLE_WIDTH
        ∧ b2.y ≥ aiY ∧ b2.y ≤ aiY + PADDLE_HEIGHT then
      reflectFromPaddle cfg aiY ⟨AI_X - BALL_RADIUS, b2.y, b2.vx, b2.vy⟩
    else b2
  { s with ball := b3, playerY := playerY, aiY := aiY }

/-- The scoring part of `update` (lines 312-313). -/
noncomputable def stepScore (cfg : Config) (now rand : ℝ) (s : GameState) : GameState :=
  if s.ball.x < -BALL_RADIUS then
    onScore cfg (-1) now rand { s with scoreAI := s.scoreAI + 1 }
  else if s.ball.x > WIDTH + BALL_RADIUS then
    onScore cfg 1 now rand { s with scorePlayer := s.scorePlayer + 1 }
  else s

/-- The per-tick environment: the tick's `performance.now()` value and the
    `Math.random()` draw used if a serve happens this tick. -/
structure TickEnv where
  now : ℝ
  rand : ℝ

/-- `update(dt)` (lines 271-314).  `dt` is accepted and, as in the source,
    never read. -/
noncomputable def update (cfg : Config) (env : TickEnv) (dt : ℝ) (s : GameState) : GameState :=
  if s.running = false then s
  else if env.now < s.pausedUntil then s
  else stepScore cfg env.now env.rand (stepPhysics cfg s)

/-- One tick as seen from outside: the input flags hold whatever values the
    event handlers last wrote, then `update` runs. -/
structure Tick where
  now : ℝ
  rand : ℝ
  dt : ℝ
  up : Bool
  down : Bool

/-- Apply one tick: external input-flag writes, then `update`. -/
noncomputable def applyTick (cfg : Config) (t : Tick) (s : GameState) : GameState :=
  update cfg ⟨t.now, t.rand⟩ t.dt { s with inputUp := t.up, inputDown := t.down }

/-- Run a sequence of ticks. -/
noncomputable def runTicks (cfg : Config) (ts : List Tick) (s : GameState) : GameState :=
  ts.foldl (fun s t => applyTick cfg t s) s

/-- `start()` (lines 345-354): no-op while running; otherwise set running,
    clear `lastTime` and schedule a frame (`raf` is the id handed back by
    `requestAnimationFrame`). -/
noncomputable def start (raf : ℕ) (s : GameState) : GameState :=
  if s.running = true then s
  else { s with running := true, lastTime := none, rafId := raf }

/-- `reset()` (lines 359-361): just `resetMatch()`. -/
noncomputable def reset (cfg : Config) (rSign rand : ℝ) (s : GameState) : GameState :=
  resetMatch cfg rSign rand s

/-- `getScores()` (lines 393-395): the scores as a (player, ai) pair; the
    source builds a fresh object by spreading, so the result is a value. -/
def getScores (s : GameState) : ℕ × ℕ := (s.scorePlayer, s.scoreAI)

/-- The gesture-tracking variables `touchStartY` / `touchCurrentY`
    (lines 167-168). -/
structure TouchCtl where
  touchStartY : ℝ
  touchCurrentY : ℝ

/-- `onTouchStart` (lines 171-177) with a nonempty touch list. -/
noncomputable def onTouchStart (clientY : ℝ) : TouchCtl :=
  { touchStartY := clientY, touchCurrentY := clientY }

/-- `onTouchMove` (lines 179-195) with a nonempty touch list: returns the
    updated gesture tracker and game state. -/
noncomputable def onTouchMove (clientY : ℝ) (tc : TouchCtl) (s : GameState) :
    TouchCtl × GameState :=
  let tc1 := { tc with touchCurrentY := clientY }
  let deltaY := clientY - tc.touchStartY
  if |deltaY| > touchThreshold then
    if deltaY < 0 then (tc1, { s with inputUp := true, inputDown := false })
    else (tc1, { s with inputUp := false, inputDown := true })
  else (tc1, s)

/-- `onTouchEnd` (lines 197-218): clear both flags, then possibly start or
    reset; `inArea` abstracts "changedTouches nonempty and the tap lies in
    the host rectangle". -/
noncomputable def onTouchEnd (cfg : Config) (inArea : Bool) (raf : ℕ) (rSign rand : ℝ)
    (s : GameState) : GameState :=
  let s1 := { s with inputUp := false, inputDown := false }
  if s1.running = false ∧ inArea = true then
    if s1.scorePlayer = 0 ∧ s1.scoreAI = 0 then start raf s1
    else resetMatch cfg rSign rand s1
  else s1

/- ------------------------------------------------------------------ -/
/- Helper lemmas                                                       -/
/- ------------------------------------------------------------------ -/

lemma clamp_le (v lo hi : ℝ) : clamp v lo hi ≤ hi := min_le_left _ _

lemma le_clamp (v lo hi : ℝ) (h : lo ≤ hi) : lo ≤ clamp v lo hi :=
  le_min h (le_max_left _ _)

lemma stepPhysics_scorePlayer (cfg : Config) (s : GameState) :
    (stepPhysics cfg s).scorePlayer = s.scorePlayer := rfl

lemma stepPhysics_scoreAI (cfg : Config) (s : GameState) :
    (stepPhysics cfg s).scoreAI = s.scoreAI := rfl

lemma stepPhysics_running (cfg : Config) (s : GameState) :
    (stepPhysics cfg s).running = s.running := rfl

lemma stepPhysics_pausedUntil (cfg : Config) (s : GameState) :
    (stepPhysics cfg s).pausedUntil = s.pausedUntil := rfl

/-- A concrete mid-game state used to instantiate theorems: the game is
    running, unpaused, paddles centered, and the ball near the left edge
    moving left fast enough to cross the boundary this tick. -/
noncomputable def sW : GameState :=
  { ball := ⟨0, 250, -20, 0⟩
    playerY := 205
    aiY := 205
    scorePlayer := 0
    scoreAI := 0
    running := true
    pausedUntil := 0
    lastTime := none
    inputUp := false
    inputDown := false
    rafId := 0 }

lemma update_live (cfg : Config) (env : TickEnv) (dt : ℝ) (s : GameState)
    (hrun : s.running = true) (hpause : ¬ env.now < s.pausedUntil) :
    update cfg env dt s = stepScore cfg env.now env.rand (stepPhysics cfg s) := by
  unfold update
  rw [if_neg (by simp [hrun]), if_neg hpause]

lemma stepScore_playerY (cfg : Config) (now rand : ℝ) (s : GameState) :
    (stepScore cfg now rand s).playerY = s.playerY := by
  unfold stepScore onScore resetBall
  split_ifs <;> rfl

lemma stepScore_aiY (cfg : Config) (now rand : ℝ) (s : GameState) :
    (stepScore cfg now rand s).aiY = s.aiY := by
  unfold stepScore onScore resetBall
  split_ifs <;> rfl

lemma stepPhysics_playerY (cfg : Config) (s : GameState) :
    (stepPhysics cfg s).playerY
      = clamp (s.playerY + ((if s.inputUp then -cfg.playerSpeed else 0)
          + (if s.inputDown then cfg.playerSpeed else 0))) 0 (HEIGHT - PADDLE_HEIGHT) := rfl

lemma stepPhysics_aiY (cfg : Config) (s : GameState) :
    (stepPhysics cfg s).aiY
      = clamp (s.aiY + clamp ((s.ball.y - PADDLE_HEIGHT / 2) - s.aiY)
          (-(if s.ball.vx < 0 then cfg.aiMaxSpeed * 0.3 else cfg.aiMaxSpeed))
          (if s.ball.vx < 0 then cfg.aiMaxSpeed * 0.3 else cfg.aiMaxSpeed))
          0 (HEIGHT - PADDLE_HEIGHT) := rfl

lemma reflectVx_sq (cfg : Config) (paddleY : ℝ) (b : Ball) :
    reflectVx cfg paddleY b ^ 2
      = max (reflectSpeed cfg b ^ 2 - reflectVy paddleY b ^ 2) 1 := by
  unfold reflectVx
  have hm : (0 : ℝ) ≤ max (reflectSpeed cfg b ^ 2 - reflectVy paddleY b ^ 2) 1 :=
    le_trans zero_le_one (le_max_right _ _)
  rw [mul_pow, Real.sq_sqrt hm]
  split_ifs <;> norm_num

lemma one_le_reflect_norm_sq (cfg : Config) (paddleY : ℝ) (b : Ball) :
    (1 : ℝ) ≤ reflectVx cfg paddleY b ^ 2 + reflectVy paddleY b ^ 2 := by
  have h1 : (1 : ℝ) ≤ reflectVx cfg paddleY b ^ 2 := by
    rw [reflectVx_sq]
    exact le_max_right _ _
  nlinarith [sq_nonneg (reflectVy paddleY b)]

/- ------------------------------------------------------------------ -/
/- Claim theorems                                                      -/
/- ------------------------------------------------------------------ -/

/-- Claim C2: after any paddle bounce, the scalar speed `hypot(vx, vy)` of
    the new velocity is exactly `min(previousSpeed + ballSpeedStep,
    ballSpeedMax)`, where `previousSpeed` is the speed before the hit (the
    sign flip of `vx` does not change the magnitude the code reads). -/
theorem reflectFromPaddle_speed (cfg : Config) (paddleY : ℝ) (b : Ball)
    (hstep : 0 ≤ cfg.ballSpeedStep) (hmax : 0 ≤ cfg.ballSpeedMax) :
    Real.sqrt ((reflectFromPaddle cfg paddleY b).vx ^ 2
        + (reflectFromPaddle cfg paddleY b).vy ^ 2)
      = min (Real.sqrt (b.vx ^ 2 + b.vy ^ 2) + cfg.ballSpeedStep) cfg.ballSpeedMax := by
  have hRS : reflectSpeed cfg b
      = min (Real.sqrt (b.vx ^ 2 + b.vy ^ 2) + cfg.ballSpeedStep) cfg.ballSpeedMax := by
    unfold reflectSpeed
    rw [show (b.vx * -1) ^ 2 = b.vx ^ 2 by ring]
  have hS0 : 0 ≤ reflectSpeed cfg b := le_min (add_nonneg (Real.sqrt_nonneg _) hstep) hmax
  have h1 : (1 : ℝ) ≤ reflectVx cfg paddleY b ^ 2 + reflectVy paddleY b ^ 2 :=
    one_le_reflect_norm_sq cfg paddleY b
  have hnn : (0 : ℝ) ≤ reflectVx cfg paddleY b ^ 2 + reflectVy paddleY b ^ 2 := by linarith
  have hnorm1 : (1 : ℝ)
      ≤ Real.sqrt (reflectVx cfg paddleY b ^ 2 + reflectVy paddleY b ^ 2) := by
    have h := Real.sqrt_le_sqrt h1
    simpa using h
  have hne : Real.sqrt (reflectVx cfg paddleY b ^ 2 + reflectVy paddleY b ^ 2) ≠ 0 :=
    (lt_of_lt_of_le one_pos hnorm1).ne'
  have hsq : Real.sqrt (reflectVx cfg paddleY b ^ 2 + reflectVy paddleY b ^ 2) ^ 2
      = reflectVx cfg paddleY b ^ 2 + reflectVy paddleY b ^ 2 := Real.sq_sqrt hnn
  rw [← hRS]
  simp only [reflectFromPaddle]
  rw [if_neg hne]
  set a := reflectVx cfg paddleY b
  set c := reflectVy paddleY b
  set S := reflectSpeed cfg b
  set n := Real.sqrt (a ^ 2 + c ^ 2) with hn
  have hac : a ^ 2 + c ^ 2 ≠ 0 := (lt_of_lt_of_le one_pos h1).ne'
  have hkey : (a / n * S) ^ 2 + (c / n * S) ^ 2 = S ^ 2 := by
    have expand : (a / n * S) ^ 2 + (c / n * S) ^ 2 = S ^ 2 * (a ^ 2 + c ^ 2) / n ^ 2 := by
      ring
    rw [expand, hsq, mul_div_assoc, div_self hac, mul_one]
  rw [hkey, Real.sqrt_sq hS0]

/-- Witness for C2: a center hit on the player paddle at the default
    configuration. -/
theorem reflectFromPaddle_speed_witness :
    (0 ≤ defaultConfig.ballSpeedStep ∧ 0 ≤ defaultConfig.ballSpeedMax) ∧
    Real.sqrt ((reflectFromPaddle defaultConfig 205 ⟨40, 250, -4, 0⟩).vx ^ 2
        + (reflectFromPaddle defaultConfig 205 ⟨40, 250, -4, 0⟩).vy ^ 2)
      = min (Real.sqrt ((-4 : ℝ) ^ 2 + (0 : ℝ) ^ 2) + defaultConfig.ballSpeedStep)
          defaultConfig.ballSpeedMax := by
  have hstep : (0 : ℝ) ≤ defaultConfig.ballSpeedStep := by norm_num [defaultConfig]
  have hmax : (0 : ℝ) ≤ defaultConfig.ballSpeedMax := by norm_num [defaultConfig]
  exact ⟨⟨hstep, hmax⟩, reflectFromPaddle_speed defaultConfig 205 ⟨40, 250, -4, 0⟩ hstep hmax⟩

/-- Claim C6: on a running, unpaused tick the AI paddle moves toward
    `ball.y - paddleHeight/2` by at most the effective speed (`aiMaxSpeed`,
    or `0.3 * aiMaxSpeed` while the ball moves away), as
    `clamp(target - ai.y, -eff, eff)` added to `ai.y` and then clamped into
    the paddle bounds. -/
theorem update_ai_tracking (cfg : Config) (env : TickEnv) (dt : ℝ) (s : GameState)
    (hrun : s.running = true) (hpause : ¬ env.now < s.pausedUntil) :
    (update cfg env dt s).aiY
      = clamp (s.aiY + clamp ((s.ball.y - PADDLE_HEIGHT / 2) - s.aiY)
          (-(if s.ball.vx < 0 then 0.3 * cfg.aiMaxSpeed else cfg.aiMaxSpeed))
          (if s.ball.vx < 0 then 0.3 * cfg.aiMaxSpeed else cfg.aiMaxSpeed))
          0 (HEIGHT - PADDLE_HEIGHT) := by
  rw [update_live cfg env dt s hrun hpause, stepScore_aiY, stepPhysics_aiY]
  rw [show (if s.ball.vx < 0 then cfg.aiMaxSpeed * 0.3 else cfg.aiMaxSpeed)
      = (if s.ball.vx < 0 then 0.3 * cfg.aiMaxSpeed else cfg.aiMaxSpeed) by
    split_ifs <;> ring]

/-- Witness for C6: the state `sW` (running, unpaused, ball moving away
    from the AI) at clock 5. -/
theorem update_ai_tracking_witness :
    sW.running = true ∧ ¬((5 : ℝ) < sW.pausedUntil) ∧
    (update defaultConfig ⟨5, 0⟩ 1 sW).aiY
      = clamp (sW.aiY + clamp ((sW.ball.y - PADDLE_HEIGHT / 2) - sW.aiY)
          (-(if sW.ball.vx < 0 then 0.3 * defaultConfig.aiMaxSpeed else defaultConfig.aiMaxSpeed))
          (if sW.ball.vx < 0 then 0.3 * defaultConfig.aiMaxSpeed else defaultConfig.aiMaxSpeed))
          0 (HEIGHT - PADDLE_HEIGHT) := by
  have hrun : sW.running = true := rfl
  have hpause : ¬((5 : ℝ) < sW.pausedUntil) := by norm_num [sW]
  exact ⟨hrun, hpause, update_ai_tracking defaultConfig ⟨5, 0⟩ 1 sW hrun hpause⟩

/-- Claim C7: when both input flags are held, the player velocity is the
    signed sum `-playerSpeed + playerSpeed = 0`, so the player paddle's y
    is unchanged up to the bounds clamp. -/
theorem update_both_keys_cancel (cfg : Config) (env : TickEnv) (dt : ℝ) (s : GameState)
    (hrun : s.running = true) (hpause : ¬ env.now < s.pausedUntil)
    (hup : s.inputUp = true) (hdown : s.inputDown = true) :
    (update cfg env dt s).playerY = clamp s.playerY 0 (HEIGHT - PADDLE_HEIGHT) := by
  rw [update_live cfg env dt s hrun hpause, stepScore_playerY, stepPhysics_playerY,
    hup, hdown]
  simp

/-- Witness for C7: the state `sW` with both keys held, at clock 5. -/
theorem update_both_keys_cancel_witness :
    ({ sW with inputUp := true, inputDown := true } : GameState).running = true ∧
    ¬((5 : ℝ) < ({ sW with inputUp := true, inputDown := true } : GameState).pausedUntil) ∧
    ({ sW with inputUp := true, inputDown := true } : GameState).inputUp = true ∧
    ({ sW with inputUp := true, inputDown := true } : GameState).inputDown = true ∧
    (update defaultConfig ⟨5, 0⟩ 1 { sW with inputUp := true, inputDown := true }).playerY
      = clamp ({ sW with inputUp := true, inputDown := true } : GameState).playerY
          0 (HEIGHT - PADDLE_HEIGHT) := by
  have hpause : ¬((5 : ℝ) <
      ({ sW with inputUp := true, inputDown := true } : GameState).pausedUntil) := by
    norm_num [sW]
  exact ⟨rfl, hpause, rfl, rfl,
    update_both_keys_cancel defaultConfig ⟨5, 0⟩ 1 _ rfl hpause rfl rfl⟩

/-- Claim C1: on a running, unpaused tick whose physics phase carries the
    ball past the left boundary (`x < -ballRadius`), the AI's score rises by
    exactly 1 and the player's is unchanged; then, if a score has reached
    `winScore`, the match stops without recentering the ball, and otherwise
    a 1s pause starts and the ball is recentered serving toward the side
    scored against.  Symmetric for the right boundary and the player. -/
theorem update_scoring_boundaries (cfg : Config) (env : TickEnv) (dt : ℝ) (s : GameState)
    (hrun : s.running = true) (hpause : ¬ env.now < s.pausedUntil) :
    ((stepPhysics cfg s).ball.x < -BALL_RADIUS →
      (update cfg env dt s).scoreAI = s.scoreAI + 1 ∧
      (update cfg env dt s).scorePlayer = s.scorePlayer ∧
      ((cfg.winScore ≤ s.scorePlayer ∨ cfg.winScore ≤ s.scoreAI + 1) →
        (update cfg env dt s).running = false ∧
        (update cfg env dt s).ball = (stepPhysics cfg s).ball ∧
        (update cfg env dt s).pausedUntil = s.pausedUntil) ∧
      (¬(cfg.winScore ≤ s.scorePlayer ∨ cfg.winScore ≤ s.scoreAI + 1) →
        (update cfg env dt s).running = true ∧
        (update cfg env dt s).pausedUntil = env.now + GOAL_PAUSE_MS ∧
        (update cfg env dt s).ball.x = WIDTH / 2 ∧
        (update cfg env dt s).ball.y = HEIGHT / 2 ∧
        (update cfg env dt s).ball.vx = -cfg.ballSpeedInitial)) ∧
    ((stepPhysics cfg s).ball.x > WIDTH + BALL_RADIUS →
      (update cfg env dt s).scorePlayer = s.scorePlayer + 1 ∧
      (update cfg env dt s).scoreAI = s.scoreAI ∧
      ((cfg.winScore ≤ s.scorePlayer + 1 ∨ cfg.winScore ≤ s.scoreAI) →
        (update cfg env dt s).running = false ∧
        (update cfg env dt s).ball = (stepPhysics cfg s).ball ∧
        (update cfg env dt s).pausedUntil = s.pausedUntil) ∧
      (¬(cfg.winScore ≤ s.scorePlayer + 1 ∨ cfg.winScore ≤ s.scoreAI) →
        (update cfg env dt s).running = true ∧
        (update cfg env dt s).pausedUntil = env.now + GOAL_PAUSE_MS ∧
        (update cfg env dt s).ball.x = WIDTH / 2 ∧
        (update cfg env dt s).ball.y = HEIGHT / 2 ∧
        (update cfg env dt s).ball.vx = cfg.ballSpeedInitial)) := by
  rw [update_live cfg env dt s hrun hpause]
  constructor
  · intro h3
    have hstep : stepScore cfg env.now env.rand (stepPhysics cfg s)
        = onScore cfg (-1) env.now env.rand
            { stepPhysics cfg s with scoreAI := (stepPhysics cfg s).scoreAI + 1 } := by
      unfold stepScore
      rw [if_pos h3]
    rw [hstep]
    unfold onScore
    split_ifs with hw
    · exact ⟨rfl, rfl, fun _ => ⟨rfl, rfl, rfl⟩, fun hnw => absurd hw hnw⟩
    · refine ⟨rfl, rfl, fun hw2 => absurd hw2 hw, fun _ => ⟨hrun, rfl, rfl, rfl, ?_⟩⟩
      show (-1 : ℝ) * cfg.ballSpeedInitial = -cfg.ballSpeedInitial
      ring
  · intro h3
    have hnotleft : ¬ (stepPhysics cfg s).ball.x < -BALL_RADIUS := by
      have hlt : (-BALL_RADIUS : ℝ) < WIDTH + BALL_RADIUS := by
        norm_num [WIDTH, BALL_RADIUS]
      linarith
    have hstep : stepScore cfg env.now env.rand (stepPhysics cfg s)
        = onScore cfg 1 env.now env.rand
            { stepPhysics cfg s with scorePlayer := (stepPhysics cfg s).scorePlayer + 1 } := by
      unfold stepScore
      rw [if_neg hnotleft, if_pos h3]
    rw [hstep]
    unfold onScore
    split_ifs with hw
    · exact ⟨rfl, rfl, fun _ => ⟨rfl, rfl, rfl⟩, fun hnw => absurd hw hnw⟩
    · refine ⟨rfl, rfl, fun hw2 => absurd hw2 hw, fun _ => ⟨hrun, rfl, rfl, rfl, ?_⟩⟩
      show (1 : ℝ) * cfg.ballSpeedInitial = cfg.ballSpeedInitial
      ring

/-- Evaluation of the physics phase at the concrete state `sW`: the ball
    moves from x = 0 to x = -20, past the left boundary. -/
lemma stepPhysics_sW_ball_x : (stepPhysics defaultConfig sW).ball.x = -20 := by
  norm_num [stepPhysics, clamp, sW, defaultConfig, WIDTH, HEIGHT, PADDLE_WIDTH,
    PADDLE_HEIGHT, BALL_RADIUS, PLAYER_X, AI_X, min_def, max_def]

/-- Witness for C1: at `sW`, the tick at clock 5 crosses the left boundary
    and the AI scores. -/
theorem update_scoring_boundaries_witness :
    sW.running = true ∧ ¬((5 : ℝ) < sW.pausedUntil) ∧
    (stepPhysics defaultConfig sW).ball.x < -BALL_RADIUS ∧
    (update defaultConfig ⟨5, 0⟩ 1 sW).scoreAI = sW.scoreAI + 1 ∧
    (update defaultConfig ⟨5, 0⟩ 1 sW).scorePlayer = sW.scorePlayer := by
  have hrun : sW.running = true := rfl
  have hpause : ¬((5 : ℝ) < sW.pausedUntil) := by norm_num [sW]
  have h3 : (stepPhysics defaultConfig sW).ball.x < -BALL_RADIUS := by
    rw [stepPhysics_sW_ball_x]
    norm_num [BALL_RADIUS]
  have h := (update_scoring_boundaries defaultConfig ⟨5, 0⟩ 1 sW hrun hpause).1 h3
  exact ⟨hrun, hpause, h3, h.1, h.2.1⟩

/-- Claim C5: `update` ignores its elapsed-time argument: running it with
    two different `dt` values from the same state, clock and randomness
    yields identical states. -/
theorem update_ignores_dt (cfg : Config) (env : TickEnv) (dt1 dt2 : ℝ) (s : GameState) :
    update cfg env dt1 s = update cfg env dt2 s := rfl

/-- Claim C4: when the game is not running, or the clock is strictly before
    `pausedUntil`, `update` leaves every position and both scores unchanged. -/
theorem update_noop_when_frozen (cfg : Config) (env : TickEnv) (dt : ℝ) (s : GameState)
    (h : s.running = false ∨ env.now < s.pausedUntil) :
    (update cfg env dt s).ball.x = s.ball.x ∧
    (update cfg env dt s).ball.y = s.ball.y ∧
    (update cfg env dt s).ball.vx = s.ball.vx ∧
    (update cfg env dt s).ball.vy = s.ball.vy ∧
    (update cfg env dt s).playerY = s.playerY ∧
    (update cfg env dt s).aiY = s.aiY ∧
    (update cfg env dt s).scorePlayer = s.scorePlayer ∧
    (update cfg env dt s).scoreAI = s.scoreAI := by
  have hs : update cfg env dt s = s := by
    unfold update
    rcases h with h | h
    · rw [if_pos h]
    · by_cases hr : s.running = false
      · rw [if_pos hr]
      · rw [if_neg hr, if_pos h]
  rw [hs]
  exact ⟨rfl, rfl, rfl, rfl, rfl, rfl, rfl, rfl⟩

/-- Witness for C4: at the freshly constructed (not running) default state,
    an update at clock 5 changes nothing. -/
theorem update_noop_when_frozen_witness :
    ((initialState defaultConfig).running = false ∨
        (5 : ℝ) < (initialState defaultConfig).pausedUntil) ∧
    (update defaultConfig ⟨5, 0⟩ 1 (initialState defaultConfig)).ball.x
        = (initialState defaultConfig).ball.x ∧
    (update defaultConfig ⟨5, 0⟩ 1 (initialState defaultConfig)).scorePlayer
        = (initialState defaultConfig).scorePlayer := by
  have h : (initialState defaultConfig).running = false ∨
      (5 : ℝ) < (initialState defaultConfig).pausedUntil := Or.inl rfl
  have hthm := update_noop_when_frozen defaultConfig ⟨5, 0⟩ 1 (initialState defaultConfig) h
  exact ⟨h, hthm.1, hthm.2.2.2.2.2.2.1⟩

/-- The paddle-bounds invariant of the Game State. -/
def paddleInv (s : GameState) : Prop :=
  0 ≤ s.playerY ∧ s.playerY ≤ HEIGHT - PADDLE_HEIGHT ∧
  0 ≤ s.aiY ∧ s.aiY ≤ HEIGHT - PADDLE_HEIGHT

lemma paddle_range_nonneg : (0 : ℝ) ≤ HEIGHT - PADDLE_HEIGHT := by
  norm_num [HEIGHT, PADDLE_HEIGHT]

lemma update_preserves_paddleInv (cfg : Config) (env : TickEnv) (dt : ℝ) (s : GameState)
    (h : paddleInv s) : paddleInv (update cfg env dt s) := by
  unfold update
  split_ifs with h1 h2
  · exact h
  · exact h
  · refine ⟨?_, ?_, ?_, ?_⟩
    · rw [stepScore_playerY, stepPhysics_playerY]
      exact le_clamp _ _ _ paddle_range_nonneg
    · rw [stepScore_playerY, stepPhysics_playerY]
      exact clamp_le _ _ _
    · rw [stepScore_aiY, stepPhysics_aiY]
      exact le_clamp _ _ _ paddle_range_nonneg
    · rw [stepScore_aiY, stepPhysics_aiY]
      exact clamp_le _ _ _

lemma applyTick_preserves_paddleInv (cfg : Config) (t : Tick) (s : GameState)
    (h : paddleInv s) : paddleInv (applyTick cfg t s) := by
  unfold applyTick
  exact update_preserves_paddleInv cfg ⟨t.now, t.rand⟩ t.dt
    { s with inputUp := t.up, inputDown := t.down } h

lemma runTicks_preserves_paddleInv (cfg : Config) (ts : List Tick) :
    ∀ s : GameState, paddleInv s → paddleInv (runTicks cfg ts s) := by
  induction ts with
  | nil => exact fun s h => h
  | cons t ts ih =>
    intro s h
    exact ih (applyTick cfg t s) (applyTick_preserves_paddleInv cfg t s h)

/-- Claim C3: starting from the centered initial state, both paddle y
    positions stay within `[0, fieldHeight - paddleHeight]` after any
    sequence of ticks with any sequence of input-flag values. -/
theorem paddles_in_bounds (cfg : Config) (ts : List Tick) :
    0 ≤ (runTicks cfg ts (initialState cfg)).playerY ∧
    (runTicks cfg ts (initialState cfg)).playerY ≤ HEIGHT - PADDLE_HEIGHT ∧
    0 ≤ (runTicks cfg ts (initialState cfg)).aiY ∧
    (runTicks cfg ts (initialState cfg)).aiY ≤ HEIGHT - PADDLE_HEIGHT := by
  have h0 : paddleInv (initialState cfg) := by
    unfold paddleInv initialState
    norm_num [HEIGHT, PADDLE_HEIGHT]
  exact runTicks_preserves_paddleInv cfg ts (initialState cfg) h0

/-- Claim C8: a touch move whose displacement from the gesture start
    exceeds the 20-unit threshold sets exactly one flag according to the
    sign of the displacement, and a touch end clears both flags whatever
    happened before. -/
theorem touch_gesture_flags (clientY : ℝ) (tc : TouchCtl) (s : GameState)
    (cfg : Config) (inArea : Bool) (raf : ℕ) (rSign rand : ℝ) (s2 : GameState) :
    (|clientY - tc.touchStartY| > touchThreshold →
      ((clientY - tc.touchStartY < 0 →
          (onTouchMove clientY tc s).2.inputUp = true ∧
          (onTouchMove clientY tc s).2.inputDown = false) ∧
        (clientY - tc.touchStartY > 0 →
          (onTouchMove clientY tc s).2.inputUp = false ∧
          (onTouchMove clientY tc s).2.inputDown = true))) ∧
    (onTouchEnd cfg inArea raf rSign rand s2).inputUp = false ∧
    (onTouchEnd cfg inArea raf rSign rand s2).inputDown = false := by
  constructor
  · intro hthr
    constructor
    · intro hneg
      unfold onTouchMove
      rw [if_pos hthr, if_pos hneg]
      exact ⟨rfl, rfl⟩
    · intro hpos
      have hnneg : ¬ clientY - tc.touchStartY < 0 := by linarith
      unfold onTouchMove
      rw [if_pos hthr, if_neg hnneg]
      exact ⟨rfl, rfl⟩
  · dsimp only [onTouchEnd]
    split_ifs with h1 h2
    · unfold start
      split_ifs <;> exact ⟨rfl, rfl⟩
    · exact ⟨rfl, rfl⟩
    · exact ⟨rfl, rfl⟩

/-- Witness for C8: a 25-unit downward swipe from y = 0 sets `down` and
    clears `up`; the gesture end clears both. -/
theorem touch_gesture_flags_witness :
    |(25 : ℝ) - (0 : ℝ)| > touchThreshold ∧ (25 : ℝ) - (0 : ℝ) > 0 ∧
    (onTouchMove 25 ⟨0, 0⟩ sW).2.inputUp = false ∧
    (onTouchMove 25 ⟨0, 0⟩ sW).2.inputDown = true ∧
    (onTouchEnd defaultConfig true 1 1 0 sW).inputUp = false ∧
    (onTouchEnd defaultConfig true 1 1 0 sW).inputDown = false := by
  have hthr : |(25 : ℝ) - (0 : ℝ)| > touchThreshold := by norm_num [touchThreshold]
  have hpos : (25 : ℝ) - (0 : ℝ) > 0 := by norm_num
  have h := touch_gesture_flags 25 ⟨0, 0⟩ sW defaultConfig true 1 1 0 sW
  have hm := (h.1 hthr).2 hpos
  exact ⟨hthr, hpos, hm.1, hm.2, h.2.1, h.2.2⟩

/-- Claim C9: `getScores` reads `{player: 0, ai: 0}` immediately after
    construction and after any `reset()`; the source builds the result by
    spreading `state.scores` into a fresh object, so it is a snapshot
    value, never a live reference. -/
theorem getScores_new_and_reset (cfg : Config) (rSign rand : ℝ) (s : GameState) :
    getScores (initialState cfg) = (0, 0) ∧
    getScores (resetMatch cfg rSign rand s) = (0, 0) :=
  ⟨rfl, rfl⟩

/-- Claim C10: `reset()` forces `running = true` whatever the prior state,
    touches neither `lastTime` nor the scheduled frame id, and a `start()`
    issued right after it returns without doing anything. -/
theorem reset_running_start_noop (cfg : Config) (rSign rand : ℝ) (s : GameState) (raf : ℕ) :
    (reset cfg rSign rand s).running = true ∧
    (reset cfg rSign rand s).rafId = s.rafId ∧
    (reset cfg rSign rand s).lastTime = s.lastTime ∧
    start raf (reset cfg rSign rand s) = reset cfg rSign rand s := by
  refine ⟨rfl, rfl, rfl, ?_⟩
  have hr : (reset cfg rSign rand s).running = true := rfl
  unfold start
  rw [if_pos hr]

end Pong
